import Mathlib

/-!
Verification development for the Flight-Crash-Analysis dashboard
(`src/app.py`, `src/extract_data.py`).

The scripts' data pipeline is embedded shallowly:

* a pandas DataFrame cell is `Cell := Option String` (`none` is NaN, the
  value pandas gives a missing CSV field);
* a DataFrame is a `RawTable`: a list of column names plus one association
  list per row (a key absent from a row reads as NaN);
* `load_data`, the filter block, `ensure_geocoded`, `geocode_locations`
  and the geocode button handler of `app.py` are translated below, each
  with a comment pointing at the lines it embeds;
* the external library calls `pd.to_datetime` and `pd.to_numeric` are
  parameters (`parseDate`, `parseNum`) of the loader, and the geopy
  lookup is a parameter (`lookup`) of the geocoder, so the theorems
  quantify over them.
-/

namespace FlightCrash

/-- A DataFrame cell: `none` models pandas NaN (missing value). -/
abbrev Cell := Option String

/-- A calendar date as produced by `pd.to_datetime` (only the fields the
scripts consume; `app.py` reads `.dt.year`). -/
structure Date where
  year : Int
  month : Nat
  day : Nat
deriving DecidableEq

/-- A raw table as returned by `pd.read_csv`: column names plus rows as
association lists from column name to cell. -/
structure RawTable where
  cols : List String
  rows : List (List (String × Cell))

/-- Reading a cell of a row: an absent key is NaN. -/
def getCell (r : List (String × Cell)) (c : String) : Cell :=
  match r.lookup c with
  | some v => v
  | none => none

/-- `Series.str.lower()` on one string: every character lowercased. -/
def pyLower (s : String) : String :=
  String.mk (s.data.map Char.toLower)

/-- `Series.str.strip()` on one string: leading and trailing whitespace
removed. -/
def pyStrip (s : String) : String :=
  String.mk (((s.data.dropWhile Char.isWhitespace).reverse.dropWhile
    Char.isWhitespace).reverse)

/-- `df.columns.str.strip().str.lower()` (app.py line 24), applied to the
column names and to the per-row keys. -/
def normNames (t : RawTable) : RawTable :=
  { cols := t.cols.map (fun c => pyLower (pyStrip c))
    rows := t.rows.map (fun r => r.map (fun kv => (pyLower (pyStrip kv.1), kv.2))) }

/-- `df.rename(columns={old: new})` guarded by `if old in df.columns`
(app.py lines 26-27). -/
def renameCol (old new : String) (t : RawTable) : RawTable :=
  if old ∈ t.cols then
    { cols := t.cols.map (fun c => if c = old then new else c)
      rows := t.rows.map (fun r => r.map
        (fun kv => if kv.1 = old then (new, kv.2) else kv)) }
  else t

/-- The table `load_data` works on after column normalization and the one
rename `app.py` performs (`type` → `aircraft_type`, lines 24-27). -/
def loadTable (t : RawTable) : RawTable :=
  renameCol "type" "aircraft_type" (normNames t)

/-- Python `str.capitalize()`: first character uppercased, the rest
lowercased (used by `.str.capitalize()` on app.py line 33). -/
def pyCapitalize (s : String) : String :=
  match s.data with
  | [] => ""
  | c :: cs => String.mk (c.toUpper :: cs.map Char.toLower)

/-- `Series.astype(str)` on one cell: pandas stringifies NaN to `"nan"`
(app.py line 33). -/
def strOfCell (c : Cell) : String :=
  match c with
  | none => "nan"
  | some s => s

/-- One normalized accident record (the columns `app.py` consumes). -/
structure Record where
  date : Option Date
  year : Option Int
  aircraftType : Cell
  operator : Cell
  damageLevel : String
  fatalities : Int
  location : Cell
  latitude : Option Rat
  longitude : Option Rat
deriving DecidableEq

/-- The per-row work of `load_data` (app.py lines 29-37) on row `r` at
positional index `i` of a table with columns `cols`:

* `date` is `pd.to_datetime(df["date"], errors="coerce", dayfirst=True)`:
  NaN and unparseable cells become NaT (`none`);
* `year` is `df["date"].dt.year` (NaT gives NaN);
* `damage_level` present: `astype(str).str.capitalize().fillna("Unknown")`
  — `astype(str)` turns NaN into the string `"nan"`, so the trailing
  `fillna` acts on a column that no longer contains NaN and is a no-op;
  absent: the scalar `"Unknown"` is broadcast;
* `operator`: `df.get("operator", pd.Series("Unknown")).fillna("Unknown")`
  — with the column present NaN becomes `"Unknown"`; with it absent the
  length-one default series aligns on the index, so only row `0` receives
  `"Unknown"` and every other row gets NaN;
* `fatalities`: `pd.to_numeric(..., errors="coerce").fillna(0)` — NaN and
  unparseable cells become `0`, parsed numbers pass through unchanged.

The loader never reads `latitude`/`longitude`; they stay unresolved. -/
def mkRecord (parseDate : String → Option Date) (parseNum : String → Option Int)
    (cols : List String) (i : Nat) (r : List (String × Cell)) : Record :=
  let d : Option Date := (getCell r "date").bind parseDate
  { date := d
    year := d.map Date.year
    aircraftType := getCell r "aircraft_type"
    operator :=
      if "operator" ∈ cols then some ((getCell r "operator").getD "Unknown")
      else if i = 0 then some "Unknown" else none
    damageLevel :=
      if "damage_level" ∈ cols then pyCapitalize (strOfCell (getCell r "damage_level"))
      else "Unknown"
    fatalities :=
      match getCell r "fatalities" with
      | none => 0
      | some s => (parseNum s).getD 0
    location := getCell r "location"
    latitude := none
    longitude := none }

/-- `load_data` (app.py lines 18-38), from the table `pd.read_csv`
produced. Failure cases of the Python code surface as `Except.error`:

* `df["date"]` raises `KeyError` when no `date` column exists (line 29);
* with no `fatalities` column, `df.get("fatalities", 0)` yields the
  scalar `0`, `pd.to_numeric` returns a scalar, and the `.fillna(0)` call
  on it raises `AttributeError` (line 37). -/
def load_data (parseDate : String → Option Date) (parseNum : String → Option Int)
    (t0 : RawTable) : Except String (List Record) :=
  let t := loadTable t0
  if "date" ∈ t.cols then
    if "fatalities" ∈ t.cols then
      Except.ok (t.rows.enum.map (fun p => mkRecord parseDate parseNum t.cols p.1 p.2))
    else Except.error "AttributeError: scalar has no attribute fillna"
  else Except.error "KeyError: date"

/-- A demonstration date parser used to instantiate witnesses (the
theorems quantify over the parser). -/
def demoParseDate : String → Option Date :=
  fun s => if s = "01/03/2020" then some ⟨2020, 3, 1⟩ else none

/-- Accumulating decimal-digit reader for the demonstration parsers. -/
def parseDigitsAux (acc : Nat) : List Char → Option Nat
  | [] => some acc
  | c :: cs =>
    if c.isDigit then parseDigitsAux (acc * 10 + (c.toNat - 48)) cs else none

/-- A demonstration numeric parser that only accepts decimal digits, so
its outputs are provably non-negative. -/
def natParse : String → Option Int :=
  fun s => if s.data.isEmpty then none else (parseDigitsAux 0 s.data).map Int.ofNat

/-- A demonstration numeric parser that also accepts a leading minus
sign, witnessing that `pd.to_numeric` parses negative numbers. -/
def intParse : String → Option Int :=
  fun s =>
    match s.data with
    | '-' :: rest =>
      if rest.isEmpty then none
      else (parseDigitsAux 0 rest).map (fun n => -(Int.ofNat n))
    | _ => natParse s

/-- `filtered[filtered["year"].isin(years)]` guarded by `if years:`
(app.py lines 95-96): a falsy (empty) selection list applies no filter.
`Series.isin` matches NaN against NaN, so membership is on `Option Int`. -/
def yearStep (df : List Record) (years : List (Option Int)) : List Record :=
  if years.isEmpty then df else df.filter (fun r => decide (r.year ∈ years))

/-- `filtered[filtered["damage_level"].isin(damage_sel)]` guarded by
`if damage_sel:` (app.py lines 97-98). -/
def damageStep (df : List Record) (sel : List String) : List Record :=
  if sel.isEmpty then df else df.filter (fun r => decide (r.damageLevel ∈ sel))

/-- `filtered[filtered["operator"].isin(operator_sel)]` guarded by
`if operator_sel:` (app.py lines 99-100). -/
def operatorStep (df : List Record) (sel : List Cell) : List Record :=
  if sel.isEmpty then df else df.filter (fun r => decide (r.operator ∈ sel))

/-- The filter block of app.py (lines 93-100): the three set-membership
filters applied in source order. -/
def applyFilters (df : List Record) (years : List (Option Int))
    (damageSel : List String) (operatorSel : List Cell) : List Record :=
  operatorStep (damageStep (yearStep df years) damageSel) operatorSel

/-- The bin labels of the fatality histogram (app.py line 162). -/
def fatalRangeLabels : List String :=
  ["0", "1-5", "6-10", "11-20", "21-50", "51-100", "100+"]

/-- `pd.cut(filtered["fatalities"], bins=[-1,0,1,5,10,20,50,1000],
labels=labels, include_lowest=True)` on one value (app.py lines 161-163):
right-closed intervals, the lowest edge included, values outside
`[-1, 1000]` become NaN (`none`). -/
def fatalRange (x : Int) : Option String :=
  if -1 ≤ x ∧ x ≤ 0 then some "0"
  else if 0 < x ∧ x ≤ 1 then some "1-5"
  else if 1 < x ∧ x ≤ 5 then some "6-10"
  else if 5 < x ∧ x ≤ 10 then some "11-20"
  else if 10 < x ∧ x ≤ 20 then some "21-50"
  else if 20 < x ∧ x ≤ 50 then some "51-100"
  else if 50 < x ∧ x ≤ 1000 then some "100+"
  else none

/-- The count `value_counts().reindex(labels)` reports for one label
(app.py line 164): the number of rows whose `fatal_range` is that label
(`value_counts` drops the NaN produced for out-of-range values). -/
def labelCount (df : List Record) (l : String) : Nat :=
  (df.filter (fun r => decide (fatalRange r.fatalities = some l))).length

/-- The sum of the seven displayed bin counts. -/
def sumFatalRangeCounts (df : List Record) : Nat :=
  (fatalRangeLabels.map (labelCount df)).sum

/-- One row of the geocode cache file `data/geocoded_locations.csv`
(columns `location, latitude, longitude`; app.py lines 229-234). -/
structure CacheEntry where
  location : Cell
  latitude : Option Rat
  longitude : Option Rat
deriving DecidableEq

/-- Outcome of one geopy `geocode` call: a hit, a miss (`None`), or a
raised exception. -/
inductive LookupResult where
  | found (lat lon : Rat)
  | notFound
  | failure
deriving DecidableEq

/-- The loop body of `geocode_locations` (app.py lines 64-78). First
component: the `results` entries in input order (the handler feeds a
duplicate-free list, so the Python dict keeps one entry per element).
Second component: the location strings actually passed to the
rate-limited `geocode` call, in call order. -/
def geocodeGo (lookup : String → LookupResult) :
    List Cell → List (Cell × Option Rat × Option Rat) × List String
  | [] => ([], [])
  | loc :: rest =>
    let tl := geocodeGo lookup rest
    match loc with
    | none => ((none, none, none) :: tl.1, tl.2)
    | some s =>
      if s = "" then ((some s, none, none) :: tl.1, tl.2)
      else
        match lookup s with
        | .found la lo => ((some s, some la, some lo) :: tl.1, s :: tl.2)
        | .notFound => ((some s, none, none) :: tl.1, s :: tl.2)
        | .failure => ((some s, none, none) :: tl.1, s :: tl.2)

/-- `geocode_locations` (app.py lines 53-78): when the geopy import
fails the function reports an error and returns the empty dict without
calling any lookup; otherwise it runs the loop. -/
def geocode_locations (geopyAvailable : Bool) (lookup : String → LookupResult)
    (locations : List Cell) : List (Cell × Option Rat × Option Rat) × List String :=
  if geopyAvailable then geocodeGo lookup locations else ([], [])

/-- Helper for `pdUnique`: keep the first occurrence of each element,
`seen` being the elements already emitted. -/
def uniqAux (seen : List String) : List String → List String
  | [] => []
  | x :: xs => if x ∈ seen then uniqAux seen xs else x :: uniqAux (x :: seen) xs

/-- `Series.unique()` on a list of strings: first occurrences, in order
(app.py line 225 applies it after `dropna()`). -/
def pdUnique (l : List String) : List String := uniqAux [] l

/-- The geocode button handler (app.py lines 224-235): collect the
unique non-null locations of the *filtered* view, geocode them, build
`cache_df` from the results dict, and write it to the cache file with
`to_csv` — a wholesale overwrite. First component: the cache file
contents after the run. Second component: the lookups issued. The
previous contents `oldCacheFile` are never read. -/
def geocodeRun (geopyAvailable : Bool) (lookup : String → LookupResult)
    (filtered : List Record) (oldCacheFile : List CacheEntry) :
    List CacheEntry × List String :=
  let uniqueLocs := pdUnique (filtered.filterMap (fun r => r.location))
  let res := geocode_locations geopyAvailable lookup (uniqueLocs.map some)
  (res.1.map (fun e => { location := e.1, latitude := e.2.1, longitude := e.2.2 }), res.2)

/-- The per-row result of the left-merge in `ensure_geocoded` when the
cache has no duplicate location keys: the unique matching entry's
coordinates, or NaN coordinates when no entry matches. -/
def mergeRow (geo : List CacheEntry) (r : Record) : Record :=
  match geo.find? (fun e => decide (e.location = r.location)) with
  | some e => { r with latitude := e.latitude, longitude := e.longitude }
  | none => { r with latitude := none, longitude := none }

/-- `df.merge(geo, on="location", how="left")` (app.py line 50) on a
left table without coordinate columns: each left row is emitted once per
matching cache entry (pandas matches NaN keys against NaN), or once with
NaN coordinates when nothing matches; left row order is preserved. -/
def mergeRows (geo : List CacheEntry) : List Record → List Record
  | [] => []
  | r :: t =>
    (let ms := geo.filter (fun e => decide (e.location = r.location))
     if ms.isEmpty then [{ r with latitude := none, longitude := none }]
     else ms.map (fun e => { r with latitude := e.latitude, longitude := e.longitude })) ++
    mergeRows geo t

/-- `ensure_geocoded` (app.py lines 40-51): a table that already has both
coordinate columns is returned as-is; otherwise, when a cache file
exists, its entries are left-merged onto the rows by location. The
second component is the cache file afterwards — the function only reads
it, so it is returned unchanged. -/
def ensure_geocoded (hasCoordCols : Bool) (cacheFile : Option (List CacheEntry))
    (df : List Record) : List Record × Option (List CacheEntry) :=
  if hasCoordCols then (df, cacheFile)
  else
    match cacheFile with
    | none => (df, none)
    | some geo => (mergeRows geo df, some geo)

/-- Successful loads produce exactly the per-row normalization of the
renamed table. -/
theorem load_data_ok {parseDate : String → Option Date}
    {parseNum : String → Option Int} {t : RawTable} {recs : List Record}
    (h : load_data parseDate parseNum t = Except.ok recs) :
    recs = (loadTable t).rows.enum.map
      (fun p => mkRecord parseDate parseNum (loadTable t).cols p.1 p.2) := by
  simp only [load_data] at h
  split at h
  · split at h
    · injection h with h
      exact h.symm
    · exact Except.noConfusion h
  · exact Except.noConfusion h

/-- C10: for every input row the derived year is the calendar year of the
parsed date whenever the date parses, and when the date is unparseable
both date and year are absent together — the row carries an explicit
unknown marker (`none`), not an error and not a default date. -/
theorem year_matches_date (parseDate : String → Option Date)
    (parseNum : String → Option Int) (t : RawTable) (recs : List Record)
    (hok : load_data parseDate parseNum t = Except.ok recs)
    (r : Record) (hr : r ∈ recs) :
    r.year = r.date.map Date.year ∧ (r.date = none ↔ r.year = none) ∧
      (∀ d, r.date = some d → r.year = some d.year) := by
  rw [load_data_ok hok] at hr
  rcases List.mem_map.mp hr with ⟨p, hp, rfl⟩
  cases hd : (getCell p.2 "date").bind parseDate <;> simp [mkRecord, hd]

/-- Input for the `year_matches_date` witness: one parseable date, one
unparseable one. -/
def yearTbl : RawTable :=
  ⟨["date", "fatalities"],
   [[("date", some "01/03/2020"), ("fatalities", some "5")],
    [("date", some "garbage"), ("fatalities", none)]]⟩

/-- The records `load_data` produces from `yearTbl`. -/
def yearRecs : List Record :=
  [{ date := some ⟨2020, 3, 1⟩, year := some 2020, aircraftType := none,
     operator := some "Unknown", damageLevel := "Unknown", fatalities := 5,
     location := none, latitude := none, longitude := none },
   { date := none, year := none, aircraftType := none, operator := none,
     damageLevel := "Unknown", fatalities := 0, location := none,
     latitude := none, longitude := none }]

/-- The second record of `yearRecs`: unparseable date. -/
def yearRecUnparsed : Record :=
  { date := none, year := none, aircraftType := none, operator := none,
    damageLevel := "Unknown", fatalities := 0, location := none,
    latitude := none, longitude := none }

/-- Witness for `year_matches_date` at the concrete table `yearTbl`. -/
theorem year_matches_date_witness :
    yearRecUnparsed.date = none ↔ yearRecUnparsed.year = none :=
  (year_matches_date demoParseDate natParse yearTbl yearRecs rfl
    yearRecUnparsed (by decide)).2.1

/-- Input refuting the non-negativity of normalized fatalities: a
negative numeric value. -/
def negFatTbl : RawTable :=
  ⟨["date", "fatalities"], [[("date", some "x"), ("fatalities", some "-3")]]⟩

/-- C3 counterexample: `pd.to_numeric(...).fillna(0)` does not clamp
negative numeric values, so a source cell `"-3"` yields a record with
`fatalities = -3 < 0`, refuting "fatalities is never negative". -/
theorem fatalities_negative_passthrough :
    (load_data demoParseDate intParse negFatTbl).toOption.map
      (fun l => l.map (fun r => r.fatalities)) = some [-3]
    ∧ ¬ (0 : Int) ≤ -3 :=
  ⟨rfl, by decide⟩

/-- C3 (amended): non-numeric or missing fatalities cells become `0`, and
numeric values pass through unchanged, so every normalized fatalities
value is non-negative provided the numeric parser only produces
non-negative values on the file's cells. -/
theorem fatalities_nonneg_of_parser_nonneg (parseDate : String → Option Date)
    (parseNum : String → Option Int) (t : RawTable) (recs : List Record)
    (hok : load_data parseDate parseNum t = Except.ok recs)
    (hpn : ∀ s v, parseNum s = some v → 0 ≤ v) :
    ∀ r ∈ recs, 0 ≤ r.fatalities := by
  intro r hr
  rw [load_data_ok hok] at hr
  rcases List.mem_map.mp hr with ⟨p, hp, rfl⟩
  cases hf : getCell p.2 "fatalities" with
  | none => simp [mkRecord, hf]
  | some s =>
    cases hv : parseNum s with
    | none => simp [mkRecord, hf, hv]
    | some v => simpa [mkRecord, hf, hv] using hpn s v hv

/-- The digits-only demonstration parser never produces a negative
number. -/
theorem natParse_nonneg : ∀ s v, natParse s = some v → 0 ≤ v := by
  intro s v h
  unfold natParse at h
  split at h
  · exact Option.noConfusion h
  · rcases Option.map_eq_some'.mp h with ⟨n, _, rfl⟩
    exact Int.ofNat_nonneg n

/-- Input for the non-negativity witness. -/
def posFatTbl : RawTable :=
  ⟨["date", "fatalities"], [[("date", some "x"), ("fatalities", some "4")]]⟩

/-- The record `load_data` produces from `posFatTbl`. -/
def posFatRec : Record :=
  { date := none, year := none, aircraftType := none, operator := some "Unknown",
    damageLevel := "Unknown", fatalities := 4, location := none,
    latitude := none, longitude := none }

/-- Witness for `fatalities_nonneg_of_parser_nonneg` at `posFatTbl`. -/
theorem fatalities_nonneg_of_parser_nonneg_witness : 0 ≤ posFatRec.fatalities :=
  fatalities_nonneg_of_parser_nonneg demoParseDate natParse posFatTbl
    [posFatRec] rfl natParse_nonneg posFatRec (by decide)

/-- Input showing the `"Unknown"` defaults failing: no `operator` column,
and a `damage_level` column with a missing (NaN) value in the first row. -/
def defaultsTbl : RawTable :=
  ⟨["date", "damage_level", "fatalities"],
   [[("date", some "01/03/2020"), ("damage_level", none), ("fatalities", some "0")],
    [("date", some "01/03/2020"), ("damage_level", some "severe"), ("fatalities", some "1")]]⟩

/-- C2 (code bug): the claim — missing operator and damage_level become
the sentinel `"Unknown"`, leaving both fields non-null — is the evident
intent (the code even calls `.fillna("Unknown")`), but the code misses it
twice: `astype(str)` turns a missing `damage_level` into the string
`"nan"` before the (now dead) `fillna`, so the value becomes `"Nan"`;
and with the `operator` column wholly absent the default
`pd.Series("Unknown")` aligns on row index `0` only, leaving every later
row's operator null. On `defaultsTbl` the operators come out
`[Unknown, null]` and the damage levels `["Nan", "Severe"]`. -/
theorem normalize_defaults_bug :
    (load_data demoParseDate intParse defaultsTbl).toOption.map
      (fun l => (l.map (fun r => r.operator), l.map (fun r => r.damageLevel)))
    = some ([some "Unknown", none], ["Nan", "Severe"]) := rfl

/-- Input with a `dmg_level` synonym column and no `damage_level`. -/
def dmgLevelTbl : RawTable :=
  ⟨["date", "fatalities", "dmg_level"],
   [[("date", some "x"), ("fatalities", some "2"), ("dmg_level", some "severe")]]⟩

/-- C4 counterexample: `app.py` does not rename `dmg_level` to
`damage_level` (its rename table holds only `type`), so a table whose
damage column is named `dmg_level` loads with every `damage_level`
defaulted to `"Unknown"` — not the claimed `"Severe"` obtained by
renaming and capitalizing. -/
theorem dmg_level_not_renamed :
    (load_data demoParseDate intParse dmgLevelTbl).toOption.map
      (fun l => l.map (fun r => r.damageLevel)) = some ["Unknown"]
    ∧ ¬ ("Unknown" : String) = "Severe" :=
  ⟨rfl, by decide⟩

/-- C4 (amended): the rename table of this variant contains only
`type` → `aircraft_type`, applied only when `type` is present; a table
without `type` is left unchanged (no error), and loading succeeds
whenever the (already canonical) `date` and `fatalities` columns exist.
The synonyms `fat`, `dmg_level` and `acc.date` are not renamed — in
particular a `dmg_level` column is ignored and `damage_level` defaults
to `"Unknown"`. -/
theorem rename_table_only_type (parseDate : String → Option Date)
    (parseNum : String → Option Int) (t : RawTable) :
    ("type" ∉ (normNames t).cols → loadTable t = normNames t)
    ∧ ("type" ∈ (normNames t).cols →
        "type" ∉ (loadTable t).cols ∧ "aircraft_type" ∈ (loadTable t).cols)
    ∧ ("date" ∈ (loadTable t).cols → "fatalities" ∈ (loadTable t).cols →
        ∃ recs, load_data parseDate parseNum t = Except.ok recs)
    ∧ (∀ recs, load_data parseDate parseNum t = Except.ok recs →
        "damage_level" ∉ (loadTable t).cols →
        ∀ r ∈ recs, r.damageLevel = "Unknown") := by
  refine ⟨fun h => ?_, fun h => ⟨?_, ?_⟩, fun hd hf => ?_, fun recs hok hdmg r hr => ?_⟩
  · simp [loadTable, renameCol, h]
  · intro hx
    rw [loadTable, renameCol, if_pos h] at hx
    rcases List.mem_map.mp hx with ⟨c, _, hfc⟩
    by_cases hc : c = "type"
    · rw [if_pos hc] at hfc
      exact absurd hfc (by decide)
    · rw [if_neg hc] at hfc
      exact hc hfc
  · rw [loadTable, renameCol, if_pos h]
    exact List.mem_map.mpr ⟨"type", h, by decide⟩
  · refine ⟨(loadTable t).rows.enum.map
      (fun p => mkRecord parseDate parseNum (loadTable t).cols p.1 p.2), ?_⟩
    simp only [load_data]
    rw [if_pos hd, if_pos hf]
  · rw [load_data_ok hok] at hr
    rcases List.mem_map.mp hr with ⟨p, hp, rfl⟩
    simp [mkRecord, hdmg]

/-- Input for the rename witness: a `type` column present. -/
def typeTbl : RawTable :=
  ⟨["type", "date", "fatalities"],
   [[("type", some "B737"), ("date", some "x"), ("fatalities", some "1")]]⟩

/-- Witness for `rename_table_only_type` at `typeTbl`. -/
theorem rename_table_only_type_witness : "aircraft_type" ∈ (loadTable typeTbl).cols :=
  ((rename_table_only_type demoParseDate natParse typeTbl).2.1 (by decide)).2

/-- A record surviving the year filter step came from the input view. -/
theorem mem_of_yearStep {df : List Record} {ys : List (Option Int)} {r : Record}
    (h : r ∈ yearStep df ys) : r ∈ df := by
  unfold yearStep at h
  split at h
  · exact h
  · exact List.mem_of_mem_filter h

/-- A record surviving the damage filter step came from the input view. -/
theorem mem_of_damageStep {df : List Record} {sel : List String} {r : Record}
    (h : r ∈ damageStep df sel) : r ∈ df := by
  unfold damageStep at h
  split at h
  · exact h
  · exact List.mem_of_mem_filter h

/-- Selecting every year value occurring in the base dataset keeps every
record of any subview of it. -/
theorem yearStep_all (df dfv : List Record) (hsub : ∀ r ∈ dfv, r ∈ df) :
    yearStep dfv ((df.map (fun r => r.year)).dedup) = dfv := by
  unfold yearStep
  split
  · rfl
  · refine List.filter_eq_self.mpr (fun r hr => ?_)
    simpa using List.mem_dedup.mpr (List.mem_map_of_mem _ (hsub r hr))

/-- Selecting every damage level occurring in the base dataset keeps
every record of any subview of it. -/
theorem damageStep_all (df dfv : List Record) (hsub : ∀ r ∈ dfv, r ∈ df) :
    damageStep dfv ((df.map (fun r => r.damageLevel)).dedup) = dfv := by
  unfold damageStep
  split
  · rfl
  · refine List.filter_eq_self.mpr (fun r hr => ?_)
    simpa using List.mem_dedup.mpr (List.mem_map_of_mem _ (hsub r hr))

/-- Selecting every operator value occurring in the base dataset keeps
every record of any subview of it. -/
theorem operatorStep_all (df dfv : List Record) (hsub : ∀ r ∈ dfv, r ∈ df) :
    operatorStep dfv ((df.map (fun r => r.operator)).dedup) = dfv := by
  unfold operatorStep
  split
  · rfl
  · refine List.filter_eq_self.mpr (fun r hr => ?_)
    simpa using List.mem_dedup.mpr (List.mem_map_of_mem _ (hsub r hr))

/-- C8: an empty selection list on any of the three dimensions is a
pass-through — the filter block returns the same subsequence as not
filtering that dimension at all, and equally the same subsequence as
selecting every value of that dimension present in the dataset (pandas
`isin` matches the NaN marker against itself); it never empties the
result. -/
theorem empty_selection_identity (df : List Record) (ys : List (Option Int))
    (ds : List String) (os : List Cell) :
    applyFilters df [] ds os = operatorStep (damageStep df ds) os
    ∧ applyFilters df ys [] os = operatorStep (yearStep df ys) os
    ∧ applyFilters df ys ds [] = damageStep (yearStep df ys) ds
    ∧ applyFilters df ((df.map (fun r => r.year)).dedup) ds os
        = applyFilters df [] ds os
    ∧ applyFilters df ys ((df.map (fun r => r.damageLevel)).dedup) os
        = applyFilters df ys [] os
    ∧ applyFilters df ys ds ((df.map (fun r => r.operator)).dedup)
        = applyFilters df ys ds [] := by
  refine ⟨?_, ?_, ?_, ?_, ?_, ?_⟩
  · simp [applyFilters, yearStep]
  · simp [applyFilters, damageStep]
  · simp [applyFilters, operatorStep]
  · rw [applyFilters, yearStep_all df df (fun r hr => hr)]
    simp [applyFilters, yearStep]
  · rw [applyFilters,
      damageStep_all df (yearStep df ys) (fun r hr => mem_of_yearStep hr)]
    simp [applyFilters, damageStep]
  · rw [applyFilters,
      operatorStep_all df (damageStep (yearStep df ys) ds)
        (fun r hr => mem_of_yearStep (mem_of_damageStep hr))]
    simp [applyFilters, operatorStep]

/-- A minimal record carrying only a fatalities value, for histogram
inputs. -/
def mkFat (n : Int) : Record :=
  { date := none, year := none, aircraftType := none, operator := some "Op",
    damageLevel := "Unknown", fatalities := n, location := none,
    latitude := none, longitude := none }

/-- C1 counterexample: the `pd.cut` bin edges stop at `1000`, so a row
with `fatalities = 1001` falls in none of the seven bins and is dropped
from the histogram — the bin counts sum to `0` while the filtered view
has `1` row, refuting the claim that the bins partition `[0, ∞)` and
that the counts always sum to the row count. -/
theorem histogram_drops_large_fatalities :
    sumFatalRangeCounts [mkFat 1001] = 0
    ∧ List.length [mkFat 1001] = 1
    ∧ ¬ sumFatalRangeCounts [mkFat 1001] = List.length [mkFat 1001] :=
  ⟨rfl, rfl, by decide⟩

/-- Unfolding of the seven-label count sum. -/
theorem sumCounts_unfold (df : List Record) :
    sumFatalRangeCounts df =
      labelCount df "0" + labelCount df "1-5" + labelCount df "6-10"
      + labelCount df "11-20" + labelCount df "21-50" + labelCount df "51-100"
      + labelCount df "100+" := by
  simp [sumFatalRangeCounts, fatalRangeLabels]
  omega

/-- Head unfolding of one label count. -/
theorem labelCount_cons (r : Record) (t : List Record) (l : String) :
    labelCount (r :: t) l
      = (if fatalRange r.fatalities = some l then 1 else 0) + labelCount t l := by
  by_cases h : fatalRange r.fatalities = some l
  · simp [labelCount, List.filter_cons, h]
    omega
  · simp [labelCount, List.filter_cons, h]

/-- Every value between `0` and `1000` lands in one of the seven bins. -/
theorem fatalRange_cases (x : Int) (h0 : 0 ≤ x) (h1 : x ≤ 1000) :
    fatalRange x = some "0" ∨ fatalRange x = some "1-5"
    ∨ fatalRange x = some "6-10" ∨ fatalRange x = some "11-20"
    ∨ fatalRange x = some "21-50" ∨ fatalRange x = some "51-100"
    ∨ fatalRange x = some "100+" := by
  unfold fatalRange
  split_ifs <;> simp_all <;> omega

/-- C1 (amended): the seven bins cover only fatalities values up to
`1000` (larger values are dropped by `pd.cut`; values in `[-1, 0]` share
the `"0"` bin). For every filtered view all of whose fatalities lie in
`[0, 1000]`, each row falls in exactly one bin and the seven bin counts
sum to the number of rows. -/
theorem histogram_partition_bounded (df : List Record)
    (h : ∀ r ∈ df, 0 ≤ r.fatalities ∧ r.fatalities ≤ 1000) :
    sumFatalRangeCounts df = df.length := by
  induction df with
  | nil => rfl
  | cons r t ih =>
    have hr := h r (List.mem_cons_self r t)
    have ht := ih (fun x hx => h x (List.mem_cons_of_mem _ hx))
    rw [sumCounts_unfold] at ht ⊢
    rcases fatalRange_cases r.fatalities hr.1 hr.2 with
      hc | hc | hc | hc | hc | hc | hc <;>
    · simp [labelCount_cons, hc, List.length_cons]
      omega

/-- A concrete view whose fatalities all lie within the binnable range. -/
def histDemo : List Record := [mkFat 0, mkFat 3, mkFat 70, mkFat 700]

/-- Witness for `histogram_partition_bounded` at `histDemo`. -/
theorem histogram_partition_bounded_witness :
    sumFatalRangeCounts histDemo = histDemo.length :=
  histogram_partition_bounded histDemo (by decide)

/-- Membership in the first-occurrence deduplication. -/
theorem mem_uniqAux (x : String) :
    ∀ (l seen : List String), x ∈ uniqAux seen l ↔ x ∈ l ∧ x ∉ seen
  | [], seen => by simp [uniqAux]
  | y :: ys, seen => by
    by_cases hy : y ∈ seen
    · rw [uniqAux, if_pos hy, mem_uniqAux x ys seen]
      constructor
      · rintro ⟨hx, hs⟩
        exact ⟨List.mem_cons_of_mem _ hx, hs⟩
      · rintro ⟨hx, hs⟩
        rcases List.mem_cons.mp hx with rfl | hx
        · exact absurd hy hs
        · exact ⟨hx, hs⟩
    · rw [uniqAux, if_neg hy]
      constructor
      · intro hx
        rcases List.mem_cons.mp hx with rfl | hx
        · exact ⟨List.mem_cons_self _ _, hy⟩
        · have h := (mem_uniqAux x ys (y :: seen)).mp hx
          exact ⟨List.mem_cons_of_mem _ h.1,
            fun hs => h.2 (List.mem_cons_of_mem _ hs)⟩
      · rintro ⟨hx, hs⟩
        rcases List.mem_cons.mp hx with rfl | hx
        · exact List.mem_cons_self _ _
        · by_cases hxy : x = y
          · subst hxy
            exact List.mem_cons_self _ _
          · refine List.mem_cons_of_mem _
              ((mem_uniqAux x ys (y :: seen)).mpr ⟨hx, fun hc => ?_⟩)
            rcases List.mem_cons.mp hc with h | h
            · exact hxy h
            · exact hs h

/-- First-occurrence deduplication never repeats an element. -/
theorem nodup_uniqAux : ∀ (l seen : List String), (uniqAux seen l).Nodup
  | [], _ => List.nodup_nil
  | y :: ys, seen => by
    rw [uniqAux]
    split
    · exact nodup_uniqAux ys seen
    · refine List.nodup_cons.mpr ⟨fun hy => ?_, nodup_uniqAux ys (y :: seen)⟩
      exact ((mem_uniqAux y ys (y :: seen)).mp hy).2 (List.mem_cons_self _ _)

/-- `pdUnique` keeps exactly the elements of its input. -/
theorem mem_pdUnique (x : String) (l : List String) : x ∈ pdUnique l ↔ x ∈ l := by
  simp [pdUnique, mem_uniqAux]

/-- `pdUnique` produces a duplicate-free list. -/
theorem nodup_pdUnique (l : List String) : (pdUnique l).Nodup :=
  nodup_uniqAux l []

/-- The geocode loop calls the rate-limited lookup exactly on the
non-empty strings of its input, in order. -/
theorem geocodeGo_calls (lk : String → LookupResult) :
    ∀ l : List String,
      (geocodeGo lk (l.map some)).2 = l.filter (fun s => decide (s ≠ ""))
  | [] => rfl
  | x :: xs => by
    by_cases hx : x = ""
    · simp [geocodeGo, hx, geocodeGo_calls lk xs]
    · cases hl : lk x <;>
        simp [geocodeGo, hx, hl, geocodeGo_calls lk xs, List.filter_cons]

/-- The geocode loop records one results entry per input element, keyed
by that element, in order. -/
theorem geocodeGo_keys (lk : String → LookupResult) :
    ∀ locs : List Cell, (geocodeGo lk locs).1.map (fun e => e.1) = locs
  | [] => rfl
  | loc :: rest => by
    cases loc with
    | none => simp [geocodeGo, geocodeGo_keys lk rest]
    | some s =>
      by_cases hs : s = ""
      · simp [geocodeGo, hs, geocodeGo_keys lk rest]
      · cases hl : lk s <;> simp [geocodeGo, hs, hl, geocodeGo_keys lk rest]

/-- With a lookup that always raises, the loop still records a
`(null, null)` entry for every input element. -/
theorem geocodeGo_failure :
    ∀ l : List String,
      (geocodeGo (fun _ => LookupResult.failure) (l.map some)).1
        = l.map (fun s => (some s, none, none))
  | [] => rfl
  | x :: xs => by
    by_cases hx : x = "" <;> simp [geocodeGo, hx, geocodeGo_failure xs]

/-- The cache a geocoding run writes is keyed by exactly the unique
non-null locations of the filtered view, in first-occurrence order. -/
theorem geocodeRun_keys (lk : String → LookupResult) (f : List Record)
    (oldCache : List CacheEntry) :
    (geocodeRun true lk f oldCache).1.map (fun e => e.location)
      = (pdUnique (f.filterMap (fun r => r.location))).map some := by
  simp only [geocodeRun, geocode_locations, if_pos, List.map_map]
  have h := geocodeGo_keys lk ((pdUnique (f.filterMap (fun r => r.location))).map some)
  simpa [Function.comp] using h

/-- C5 (amended): a geocoding run issues exactly one lookup per unique
non-empty location of the current filtered view, regardless of what the
existing cache file contains — previously cached locations, failed ones
included, are re-queried. Every unique location receives a results
entry, and with a lookup that always fails every entry is `(null, null)`
rather than omitted: the failure is absorbed, never propagated. -/
theorem geocode_run_lookups (lk : String → LookupResult) (f : List Record)
    (oldCache : List CacheEntry) :
    (geocodeRun true lk f oldCache).2
      = (pdUnique (f.filterMap (fun r => r.location))).filter
          (fun s => decide (s ≠ ""))
    ∧ ((geocodeRun true lk f oldCache).2).Nodup
    ∧ (geocodeRun true lk f oldCache).1.map (fun e => e.location)
        = (pdUnique (f.filterMap (fun r => r.location))).map some
    ∧ (geocodeRun true (fun _ => LookupResult.failure) f oldCache).1
        = (pdUnique (f.filterMap (fun r => r.location))).map
            (fun s => { location := some s, latitude := none, longitude := none }) := by
  refine ⟨?_, ?_, geocodeRun_keys lk f oldCache, ?_⟩
  · simp only [geocodeRun, geocode_locations, if_pos]
    exact geocodeGo_calls lk (pdUnique (f.filterMap (fun r => r.location)))
  · simp only [geocodeRun, geocode_locations, if_pos]
    rw [geocodeGo_calls lk (pdUnique (f.filterMap (fun r => r.location)))]
    exact (nodup_pdUnique _).filter _
  · simp only [geocodeRun, geocode_locations, if_pos]
    rw [geocodeGo_failure (pdUnique (f.filterMap (fun r => r.location)))]
    simp [List.map_map, Function.comp]

/-- A lookup oracle that reports every location as not found. -/
def demoLookup : String → LookupResult := fun _ => LookupResult.notFound

/-- A filtered view consisting of one accident located in Paris. -/
def parisRec : Record :=
  { date := none, year := none, aircraftType := none, operator := some "AF",
    damageLevel := "Unknown", fatalities := 0, location := some "Paris",
    latitude := none, longitude := none }

/-- A cache file already holding a `(null, null)` entry for Paris — a
known-failed lookup. -/
def parisFailedEntry : CacheEntry :=
  { location := some "Paris", latitude := none, longitude := none }

/-- C5 counterexample: with `"Paris"` already cached as a known-failed
`(null, null)` entry, a repeated geocoding run still issues a lookup for
`"Paris"` — the handler never reads the existing cache, refuting "one
lookup per unique, non-empty location string that is not already
cached". -/
theorem geocode_requeries_cached :
    parisFailedEntry.location = some "Paris"
    ∧ parisFailedEntry.latitude = none
    ∧ (geocodeRun true demoLookup [parisRec] [parisFailedEntry]).2 = ["Paris"] :=
  ⟨rfl, rfl, rfl⟩

/-- C6: the cache a geocoding run writes is built solely from the unique
non-null locations of the current filtered view — it is independent of
the cache file's previous contents, holds exactly one entry per such
location, and an old entry whose location is not in the filtered view is
gone after the overwrite. -/
theorem cache_overwrite_wholesale (lk : String → LookupResult)
    (f : List Record) (old1 old2 : List CacheEntry) :
    (geocodeRun true lk f old1).1 = (geocodeRun true lk f old2).1
    ∧ ((geocodeRun true lk f old1).1.map (fun e => e.location)).Nodup
    ∧ ∀ s : String,
        some s ∈ (geocodeRun true lk f old1).1.map (fun e => e.location)
        ↔ s ∈ f.filterMap (fun r => r.location) := by
  refine ⟨rfl, ?_, fun s => ?_⟩
  · rw [geocodeRun_keys lk f old1]
    exact (nodup_pdUnique _).map (Option.some_injective String)
  · rw [geocodeRun_keys lk f old1]
    simp [mem_pdUnique]

/-- Witness for `cache_overwrite_wholesale` at a concrete run. -/
theorem cache_overwrite_wholesale_witness :
    some "Paris" ∈ (geocodeRun true demoLookup [parisRec]
        [parisFailedEntry]).1.map (fun e => e.location)
    ↔ "Paris" ∈ [parisRec].filterMap (fun r => r.location) :=
  (cache_overwrite_wholesale demoLookup [parisRec] [parisFailedEntry] []).2.2 "Paris"

/-- C7 counterexample: with geopy absent, a geocoding run over a view
with no locations still overwrites the cache file, leaving it empty —
the pre-existing Paris entry is erased, refuting "an existing geocode
cache file is left unchanged". -/
theorem missing_geopy_clobbers_cache :
    (geocodeRun false demoLookup [parisRec] [parisFailedEntry]).1 = []
    ∧ ¬ ([] : List CacheEntry) = [parisFailedEntry] :=
  ⟨rfl, by decide⟩

/-- C7 (amended): when geopy is absent the run performs no lookups, but
it is not a complete no-op on the file system — the handler still builds
a cache from the empty results dict and writes it, so the cache file
ends up empty whatever it held before. -/
theorem missing_geopy_run (lk : String → LookupResult) (f : List Record)
    (oldCache : List CacheEntry) :
    geocodeRun false lk f oldCache = ([], []) := rfl

/-- With duplicate-free cache keys, the per-row merge branch produces
exactly one output row, described by `mergeRow`. -/
theorem merge_branch_eq (r : Record) (geo : List CacheEntry)
    (h : (geo.map (fun e => e.location)).Nodup) :
    (if (geo.filter (fun e => decide (e.location = r.location))).isEmpty
     then [{ r with latitude := none, longitude := none }]
     else (geo.filter (fun e => decide (e.location = r.location))).map
        (fun e => { r with latitude := e.latitude, longitude := e.longitude }))
    = [mergeRow geo r] := by
  induction geo with
  | nil => simp [mergeRow]
  | cons g gs ih =>
    rw [List.map_cons, List.nodup_cons] at h
    by_cases hg : g.location = r.location
    · have hgs : gs.filter (fun e => decide (e.location = r.location)) = [] := by
        rw [List.filter_eq_nil_iff]
        intro e he
        simp only [decide_eq_true_eq]
        intro heq
        exact h.1 (hg ▸ heq ▸ List.mem_map_of_mem (fun e => e.location) he)
      simp [List.filter_cons, hg, hgs, mergeRow, List.find?_cons]
    · have := ih h.2
      simpa [List.filter_cons, hg, mergeRow, List.find?_cons] using this

/-- With duplicate-free cache keys, the merge maps each row to its
`mergeRow` image, preserving count and order. -/
theorem mergeRows_eq (geo : List CacheEntry)
    (h : (geo.map (fun e => e.location)).Nodup) :
    ∀ df : List Record, mergeRows geo df = df.map (mergeRow geo)
  | [] => rfl
  | r :: t => by
    rw [mergeRows, merge_branch_eq r geo h, mergeRows_eq geo h t, List.map_cons]
    rfl

/-- With duplicate-free keys, the entry found for a row is the matching
one. -/
theorem find?_entry (r : Record) (geo : List CacheEntry)
    (h : (geo.map (fun e => e.location)).Nodup) (e : CacheEntry)
    (he : e ∈ geo) (heq : e.location = r.location) :
    geo.find? (fun x => decide (x.location = r.location)) = some e := by
  induction geo with
  | nil => exact absurd he (List.not_mem_nil e)
  | cons g gs ih =>
    rw [List.map_cons, List.nodup_cons] at h
    by_cases hg : g.location = r.location
    · rcases List.mem_cons.mp he with rfl | he
      · simp [List.find?_cons, hg]
      · exact absurd (hg ▸ heq ▸ List.mem_map_of_mem (fun x => x.location) he)
          h.1
    · rcases List.mem_cons.mp he with rfl | he
      · exact absurd heq hg
      · simp only [List.find?_cons, decide_eq_false hg]
        exact ih h.2 he

/-- C9: with the dataset lacking coordinate columns and a cache file
present (its keys duplicate-free, per the cache invariant), the merge
maps each row in place: a row whose location matches a cache entry gets
that entry's coordinates, a row with no matching entry keeps null
coordinates, the row count and order are preserved, and the cache file
itself comes back unmodified. -/
theorem geo_merge_left_join (geo : List CacheEntry) (df : List Record)
    (h : (geo.map (fun e => e.location)).Nodup) :
    (ensure_geocoded false (some geo) df).1 = df.map (mergeRow geo)
    ∧ ((ensure_geocoded false (some geo) df).1).length = df.length
    ∧ (ensure_geocoded false (some geo) df).2 = some geo
    ∧ (∀ r e, e ∈ geo → e.location = r.location →
        mergeRow geo r = { r with latitude := e.latitude, longitude := e.longitude })
    ∧ (∀ r : Record, (∀ e ∈ geo, ¬ e.location = r.location) →
        mergeRow geo r = { r with latitude := none, longitude := none }) := by
  refine ⟨?_, ?_, rfl, fun r e he heq => ?_, fun r hnone => ?_⟩
  · simpa [ensure_geocoded] using mergeRows_eq geo h df
  · simp [ensure_geocoded, mergeRows_eq geo h df]
  · rw [mergeRow, find?_entry r geo h e he heq]
  · rw [mergeRow, List.find?_eq_none.mpr (fun e he => by simpa using hnone e he)]

/-- A concrete cache with distinct keys: Springfield resolved, Unknown
attempted without result. -/
def geoDemo : List CacheEntry :=
  [{ location := some "Springfield", latitude := some 39, longitude := some (-89) },
   { location := some "Unknown", latitude := none, longitude := none }]

/-- A concrete dataset: one row matching the cache, one not. -/
def dfDemo : List Record :=
  [{ parisRec with location := some "Springfield" },
   { parisRec with location := some "Nowhere" }]

/-- Witness for `geo_merge_left_join` at `geoDemo` and `dfDemo`. -/
theorem geo_merge_left_join_witness :
    (ensure_geocoded false (some geoDemo) dfDemo).1 = dfDemo.map (mergeRow geoDemo) :=
  (geo_merge_left_join geoDemo dfDemo (by decide)).1

end FlightCrash
